import Mathlib

/-!
Shallow embedding of the frame-graph prototype in src/lib.rs (crate
frame-graph on top of gfx-hal).  Pure data is translated directly;
external gfx-hal objects (device, queue, command pool, fence, boxed task
objects) are modelled through the observable events the source sends
them.  Machine integers of the source (u8 mip levels, u16 array layers,
u16 epochs, u32 bitflag words) are modelled as Nat: the source only
compares them, takes min and max, and bit-ands them, so no overflow is
observable on any path the development evaluates.
-/

/-- hal::image::ImageLayout (the constructors this development needs). -/
inductive ImageLayout where
  | Undefined
  | General
  | ColorAttachmentOptimal
  | DepthStencilAttachmentOptimal
  | ShaderReadOnlyOptimal
  | TransferSrcOptimal
  | TransferDstOptimal
  deriving DecidableEq

/-- hal::image::Access bitflags, mirroring the Vulkan access bits. -/
def INPUT_ATTACHMENT_READ : Nat := 0x10
def SHADER_READ : Nat := 0x20
def SHADER_WRITE : Nat := 0x40
def COLOR_ATTACHMENT_READ : Nat := 0x80
def COLOR_ATTACHMENT_WRITE : Nat := 0x100
def DEPTH_STENCIL_ATTACHMENT_WRITE : Nat := 0x400
def TRANSFER_READ : Nat := 0x800
def TRANSFER_WRITE : Nat := 0x1000
def HOST_WRITE : Nat := 0x4000
def MEMORY_WRITE : Nat := 0x10000

/-- hal::image::Access::ALL_WRITE, the union of the write bits. -/
def ALL_WRITE : Nat :=
  SHADER_WRITE ||| COLOR_ATTACHMENT_WRITE ||| DEPTH_STENCIL_ATTACHMENT_WRITE |||
  TRANSFER_WRITE ||| HOST_WRITE ||| MEMORY_WRITE

/-- bitflags intersects: the two masks share at least one bit. -/
def accessIntersects (a b : Nat) : Bool := (a &&& b) != 0

/-- hal::format::AspectFlags bits. -/
def ASPECT_COLOR : Nat := 1
def ASPECT_DEPTH : Nat := 2
def ASPECT_STENCIL : Nat := 4

/-- hal::image::SubresourceRange: aspect mask, mip level interval,
array layer interval (half-open intervals as in Rust `Range`). -/
structure SubresourceRange where
  aspects : Nat
  levelStart : Nat
  levelEnd : Nat
  layerStart : Nat
  layerEnd : Nat
  deriving DecidableEq

/-- The intersection computed inline in FrameGraph::stamp_image
(src/lib.rs lines 202-206): aspect AND, max of starts, min of ends. -/
def intersectRange (a b : SubresourceRange) : SubresourceRange :=
  { aspects := a.aspects &&& b.aspects
  , levelStart := max a.levelStart b.levelStart
  , levelEnd := min a.levelEnd b.levelEnd
  , layerStart := max a.layerStart b.layerStart
  , layerEnd := min a.layerEnd b.layerEnd }

/-- The emptiness test of FrameGraph::stamp_image (src/lib.rs lines
207-210): empty aspect mask, or an empty level or layer interval. -/
def rangeIsEmpty (r : SubresourceRange) : Bool :=
  r.aspects == 0 || r.levelEnd ≤ r.levelStart || r.layerEnd ≤ r.layerStart

/-- hal::image::SubresourceLayers: aspect mask, a single mip level, a
layer interval. -/
structure SubresourceLayers where
  aspects : Nat
  level : Nat
  layerStart : Nat
  layerEnd : Nat
  deriving DecidableEq

/-- The `sl.into()` conversion used by add_render_task: a layers value
denotes the single-level range at its level. -/
def SubresourceLayers.toRange (sl : SubresourceLayers) : SubresourceRange :=
  { aspects := sl.aspects
  , levelStart := sl.level
  , levelEnd := sl.level + 1
  , layerStart := sl.layerStart
  , layerEnd := sl.layerEnd }

/-- hal::image::State = (Access, ImageLayout). -/
abbrev ImageState := Nat × ImageLayout

/-- Buffer descriptor (src/lib.rs lines 34-38).  The opaque external
`&B::Buffer` handle carried alongside the state is dropped: only the
state component is ever read by the source. -/
structure Buffer where
  size : Nat
  stride : Nat
  body : Option Nat
  deriving DecidableEq

/-- Image descriptor (src/lib.rs lines 62-66).  `kind` is represented by
the two quantities the source extracts from it (get_num_levels,
get_num_layers) and `format` by the aspect mask the source extracts
(format.aspects()); the opaque external `&B::Image` handle is dropped. -/
structure Image where
  numLevels : Nat
  numLayers : Nat
  formatAspects : Nat
  body : Option ImageState
  deriving DecidableEq

/-- The Resource trait (src/lib.rs lines 40-45). -/
class Resource (R : Type) (P : outParam Type) (S : outParam Type) where
  full_part : R → P
  idle_state : R → S

/-- impl Resource for Buffer (src/lib.rs lines 47-60). -/
instance : Resource Buffer Unit Nat where
  full_part _ := ()
  idle_state b := b.body.getD 0

/-- impl Resource for Image (src/lib.rs lines 68-85). -/
instance : Resource Image SubresourceRange ImageState where
  full_part img :=
    { aspects := img.formatAspects
    , levelStart := 0
    , levelEnd := img.numLevels
    , layerStart := 0
    , layerEnd := img.numLayers }
  idle_state img := img.body.getD (0, ImageLayout.Undefined)

/-- TrackedState (src/lib.rs lines 88-96).  Epochs (u16 newtype in the
source) are modelled as Nat. -/
structure TrackedState (P S : Type) where
  part : P
  state : S
  dependencies : List (Nat × P)
  deriving DecidableEq

/-- TrackedResource (src/lib.rs lines 98-101). -/
structure TrackedResource (R P S : Type) where
  resource : R
  states : List (TrackedState P S)
  deriving DecidableEq

/-- impl From<R> for TrackedResource (src/lib.rs lines 103-116): seed
the history with one full-extent idle state with no dependencies. -/
def TrackedResource.ofResource {R P S : Type} [Resource R P S] (resource : R) :
    TrackedResource R P S :=
  { resource
  , states := [{ part := Resource.full_part resource
               , state := Resource.idle_state resource
               , dependencies := [] }] }

abbrev TrackedImage := TrackedResource Image SubresourceRange ImageState
abbrev TrackedBuffer := TrackedResource Buffer Unit Nat

/-- Attachments (src/lib.rs lines 6-10).  AttachmentOps values are
opaque to the core and modelled as Nat. -/
structure Attachments (S : Type) where
  inputs : List (Nat × S)
  outputs : List (Nat × S × Nat)
  depth_stencil : Option (Nat × S × Nat × Nat)
  deriving DecidableEq

/-- Resources (src/lib.rs lines 12-15): declared buffer and image
accesses of a task. -/
structure Resources where
  buffers : List (Nat × Nat)
  images : List (Nat × SubresourceRange × Nat × ImageLayout)
  deriving DecidableEq

/-- Task (src/lib.rs lines 118-122), renamed FgTask because Task is
already a core Lean name.  The boxed RenderTask / WorkTask objects are
external code: the embedding keeps only the data the core stores next
to them; their prepare and record effects are modelled as events in the
run embedding below. -/
inductive FgTask where
  | graphics (atts : Attachments Nat) (res : Resources)
  | transfer
  | compute
  deriving DecidableEq

def FgTask.isGraphics : FgTask → Bool
  | .graphics _ _ => true
  | _ => false

/-- FrameGraph state (src/lib.rs lines 152-160).  The queue, command
pool and fence handles are external objects; their use is modelled by
the event trace of the run embedding. -/
structure FrameGraph where
  buffers : List TrackedBuffer
  images : List TrackedImage
  tasks : List FgTask

/-- FrameGraph::use_buffer (src/lib.rs lines 169-173): returns the new
reference (the old arena length) and the updated graph. -/
def FrameGraph.use_buffer (g : FrameGraph) (buffer : Buffer) : Nat × FrameGraph :=
  (g.buffers.length,
   { g with buffers := g.buffers ++ [TrackedResource.ofResource buffer] })

/-- FrameGraph::use_image (src/lib.rs lines 175-179). -/
def FrameGraph.use_image (g : FrameGraph) (image : Image) : Nat × FrameGraph :=
  (g.images.length,
   { g with images := g.images ++ [TrackedResource.ofResource image] })

/-- Possible outcomes of one stamp_image call.  The Rust signature
returns Epoch; `ok` is the normal return (never produced by the source:
no path of the function body returns), `panicked` is the terminal
`panic!` carrying the uncovered active parts, `outOfFuel` reports that
the given loop fuel was exhausted (the while loop of the source has no
fuel bound, so a computation that is outOfFuel for every fuel value is a
computation that does not terminate). -/
inductive StampResult where
  | ok (epoch : Nat)
  | panicked (uncovered : List SubresourceRange)
  | outOfFuel
  deriving DecidableEq

/-- The inner `while j < active_parts.len()` loop of
FrameGraph::stamp_image (src/lib.rs lines 199-220), for one history
entry with part `tsPart` and state access mask `tsAccess`.  An empty
intersection advances j (lines 211-214); a non-empty intersection only
evaluates the hazard test whose body is empty in the source (lines
215-219) and re-enters the loop with j and active_parts unchanged.
`fuel` bounds the number of iterations. -/
def whileLoop (access : Nat) (tsPart : SubresourceRange) (tsAccess : Nat)
    (parts : List SubresourceRange) (j : Nat) (fuel : Nat) :
    Option (List SubresourceRange) :=
  match fuel with
  | 0 => none
  | fuel + 1 =>
    match parts.get? j with
    | none => some parts
    | some part =>
      let intersection := intersectRange tsPart part
      if rangeIsEmpty intersection then
        whileLoop access tsPart tsAccess parts (j + 1) fuel
      else
        let _dependency_is_required :=
          accessIntersects access ALL_WRITE || accessIntersects tsAccess ALL_WRITE
        whileLoop access tsPart tsAccess parts j fuel

/-- The outer `for (i, ts) in tr.states.iter_mut().enumerate().rev()`
loop of FrameGraph::stamp_image (src/lib.rs line 198): the history is
scanned most-recent first, so this function receives the state list
already reversed.  Each inner loop gets the same fuel bound. -/
def outerLoop (access : Nat) (statesRev : List (TrackedState SubresourceRange ImageState))
    (parts : List SubresourceRange) (fuel : Nat) : Option (List SubresourceRange) :=
  match statesRev with
  | [] => some parts
  | ts :: rest =>
    match whileLoop access ts.part ts.state.1 parts 0 fuel with
    | none => none
    | some parts2 => outerLoop access rest parts2 fuel

/-- The body of FrameGraph::stamp_image (src/lib.rs lines 181-223) on
the tracked resource it selects.  active_parts starts as the single
requested subresource; after the scan the function unconditionally
panics with the remaining active parts (line 222).  No path of the
source mutates the history (the loop body assigns nothing through its
mutable references), so the embedding returns only the outcome.  The
`layout` argument is received and never read, as in the source. -/
def stampScan (tr : TrackedImage) (subresource : SubresourceRange)
    (access : Nat) (layout : ImageLayout) (fuel : Nat) : StampResult :=
  let active_parts := [subresource]
  match outerLoop access tr.states.reverse active_parts fuel with
  | none => StampResult.outOfFuel
  | some parts => StampResult.panicked parts

/-- FrameGraph::stamp_image (src/lib.rs lines 181-223): select
self.images[image_ref.0] and scan it.  An out-of-range index panics in
Rust; it is modelled as a panic with no recorded active parts (no claim
exercises an invalid reference). -/
def FrameGraph.stamp_image (g : FrameGraph) (image_ref : Nat)
    (subresource : SubresourceRange) (access : Nat) (layout : ImageLayout)
    (fuel : Nat) : StampResult :=
  match g.images.get? image_ref with
  | none => StampResult.panicked []
  | some tr => stampScan tr subresource access layout fuel

/-- A stamp call diverges when every fuel bound is exhausted: the
unbounded while loop of the source never terminates on this input. -/
def stampDiverges (tr : TrackedImage) (subresource : SubresourceRange)
    (access : Nat) (layout : ImageLayout) : Prop :=
  ∀ fuel, stampScan tr subresource access layout fuel = StampResult.outOfFuel

/-- One tracker invocation attempted by add_render_task: the image
reference, the converted subresource range, the access implied by the
attachment kind, and the layout. -/
structure StampCall where
  image : Nat
  sub : SubresourceRange
  access : Nat
  layout : ImageLayout
  deriving DecidableEq

/-- Outcome of FrameGraph::add_render_task, together with the list of
tracker invocations performed (in order) before the outcome. -/
inductive ARTResult where
  | ok (g : FrameGraph) (calls : List StampCall)
  | panicked (calls : List StampCall)
  | outOfFuel (calls : List StampCall)

/-- The depth_stencil step and the final task push of add_render_task
(src/lib.rs lines 245-250): stamp with DEPTH_STENCIL_ATTACHMENT_WRITE,
then push Task::Graphics with the rewritten attachments and the
declared resources. -/
def goDepthStencil (g : FrameGraph) (resources : Resources) (acc : Attachments Nat)
    (calls : List StampCall)
    (ds : Option (Nat × (SubresourceLayers × ImageLayout) × Nat × Nat))
    (fuel : Nat) : ARTResult :=
  match ds with
  | none =>
    ARTResult.ok { g with tasks := g.tasks ++ [FgTask.graphics acc resources] } calls
  | some (ir, (sl, layout), depth_ops, stencil_ops) =>
    let call : StampCall := ⟨ir, sl.toRange, DEPTH_STENCIL_ATTACHMENT_WRITE, layout⟩
    match g.stamp_image ir sl.toRange DEPTH_STENCIL_ATTACHMENT_WRITE layout fuel with
    | StampResult.ok epoch =>
      ARTResult.ok
        { g with tasks := g.tasks ++
            [FgTask.graphics
              { acc with depth_stencil := some (ir, epoch, depth_ops, stencil_ops) }
              resources] }
        (calls ++ [call])
    | StampResult.panicked _ => ARTResult.panicked (calls ++ [call])
    | StampResult.outOfFuel => ARTResult.outOfFuel (calls ++ [call])

/-- The outputs loop of add_render_task (src/lib.rs lines 240-244):
stamp each color output with COLOR_ATTACHMENT_WRITE and keep the
returned epoch in place of the raw layout. -/
def goOutputs (g : FrameGraph) (resources : Resources) (acc : Attachments Nat)
    (calls : List StampCall)
    (outputs : List (Nat × (SubresourceLayers × ImageLayout) × Nat))
    (ds : Option (Nat × (SubresourceLayers × ImageLayout) × Nat × Nat))
    (fuel : Nat) : ARTResult :=
  match outputs with
  | [] => goDepthStencil g resources acc calls ds fuel
  | (ir, (sl, layout), ops) :: rest =>
    let call : StampCall := ⟨ir, sl.toRange, COLOR_ATTACHMENT_WRITE, layout⟩
    match g.stamp_image ir sl.toRange COLOR_ATTACHMENT_WRITE layout fuel with
    | StampResult.ok epoch =>
      goOutputs g resources { acc with outputs := acc.outputs ++ [(ir, epoch, ops)] }
        (calls ++ [call]) rest ds fuel
    | StampResult.panicked _ => ARTResult.panicked (calls ++ [call])
    | StampResult.outOfFuel => ARTResult.outOfFuel (calls ++ [call])

/-- The inputs loop of add_render_task (src/lib.rs lines 236-239):
stamp each input attachment with INPUT_ATTACHMENT_READ and keep the
returned epoch in place of the raw layout. -/
def goInputs (g : FrameGraph) (resources : Resources) (acc : Attachments Nat)
    (calls : List StampCall)
    (inputs : List (Nat × SubresourceLayers × ImageLayout))
    (outputs : List (Nat × (SubresourceLayers × ImageLayout) × Nat))
    (ds : Option (Nat × (SubresourceLayers × ImageLayout) × Nat × Nat))
    (fuel : Nat) : ARTResult :=
  match inputs with
  | [] => goOutputs g resources acc calls outputs ds fuel
  | (ir, sl, layout) :: rest =>
    let call : StampCall := ⟨ir, sl.toRange, INPUT_ATTACHMENT_READ, layout⟩
    match g.stamp_image ir sl.toRange INPUT_ATTACHMENT_READ layout fuel with
    | StampResult.ok epoch =>
      goInputs g resources { acc with inputs := acc.inputs ++ [(ir, epoch)] }
        (calls ++ [call]) rest outputs ds fuel
    | StampResult.panicked _ => ARTResult.panicked (calls ++ [call])
    | StampResult.outOfFuel => ARTResult.outOfFuel (calls ++ [call])

/-- FrameGraph::add_render_task (src/lib.rs lines 225-251): rewrite the
attachments through the tracker (inputs, then outputs, then the
depth_stencil attachment), then store the Graphics task.  The declared
`resources` are stored untouched: the source marks their tracking as a
TODO (line 249) and performs no tracker call for them. -/
def FrameGraph.add_render_task (g : FrameGraph)
    (attachments : Attachments (SubresourceLayers × ImageLayout))
    (resources : Resources) (fuel : Nat) : ARTResult :=
  goInputs g resources { inputs := [], outputs := [], depth_stencil := none } []
    attachments.inputs attachments.outputs attachments.depth_stencil fuel

/-- The observable events FrameGraph::run sends to the external device,
tasks, command buffer and queue, tagged with the task index. -/
inductive Event where
  | create_render_pass (i : Nat)
  | prepare (i : Nat)
  | create_framebuffer (i : Nat)
  | record (i : Nat)
  | finish
  | reset_fence
  | submit
  deriving DecidableEq

/-- Extract the task index of a record event. -/
def recIdx : Event → Option Nat
  | Event.record i => some i
  | _ => none

/-- The node-building loop of run (src/lib.rs lines 256-283): for a
graphics task, create_render_pass then prepare the task; transfer and
compute tasks pass through with no device interaction.  Nodes are built
one per task, in order. -/
def compileLoop : List FgTask → Nat → List Event
  | [], _ => []
  | t :: rest, i =>
    (if t.isGraphics then [Event.create_render_pass i, Event.prepare i] else [])
      ++ compileLoop rest (i + 1)

/-- The recording loop of run (src/lib.rs lines 288-318): for a
graphics node, create_framebuffer (whose Result the source unwraps:
failure panics and stops the run) then record its single task inside
the renderpass; transfer and compute nodes record directly.  `fbFail`
tells, per node index, whether the external create_framebuffer call
fails.  The Bool result is true when the loop completed. -/
def recordLoop (fbFail : Nat → Bool) : List FgTask → Nat → List Event × Bool
  | [], _ => ([], true)
  | t :: rest, i =>
    if t.isGraphics then
      if fbFail i then ([Event.create_framebuffer i], false)
      else
        let r := recordLoop fbFail rest (i + 1)
        (Event.create_framebuffer i :: Event.record i :: r.1, r.2)
    else
      let r := recordLoop fbFail rest (i + 1)
      (Event.record i :: r.1, r.2)

/-- FrameGraph::run (src/lib.rs lines 253-325): build nodes (calling
prepare on graphics tasks), record every node in registration order,
then finish the command buffer, reset the frame fence and submit the
single batch with that fence.  A create_framebuffer failure panics
during the recording loop, so the finish / reset_fence / submit tail
never happens.  The Bool result is true when the run completed (the
frame was submitted). -/
def FrameGraph.run (g : FrameGraph) (fbFail : Nat → Bool) : List Event × Bool :=
  let compiled := compileLoop g.tasks 0
  let r := recordLoop fbFail g.tasks 0
  if r.2 then
    (compiled ++ r.1 ++ [Event.finish, Event.reset_fence, Event.submit], true)
  else
    (compiled ++ r.1, false)

/-! ### Helper lemmas about the stamp_image loops -/

/-- The inner loop never changes active_parts: its only outcomes are
fuel exhaustion or exit with the list it was given (the source loop
body assigns nothing through its mutable references and pushes
nothing). -/
theorem whileLoop_parts_invariant (access : Nat) (tsPart : SubresourceRange)
    (tsAccess : Nat) :
    ∀ fuel parts j, whileLoop access tsPart tsAccess parts j fuel = none ∨
      whileLoop access tsPart tsAccess parts j fuel = some parts := by
  intro fuel
  induction fuel with
  | zero => intro parts j; exact Or.inl rfl
  | succ f ih =>
    intro parts j
    unfold whileLoop
    cases hg : parts.get? j with
    | none => exact Or.inr rfl
    | some part =>
      by_cases he : rangeIsEmpty (intersectRange tsPart part) = true
      · simpa [he] using ih parts (j + 1)
      · simpa [he] using ih parts j

/-- A non-empty intersection at the current index leaves the loop state
unchanged, so the inner loop exhausts any fuel bound: on a singleton
work list whose part meets tsPart, the loop never terminates. -/
theorem whileLoop_stuck (access : Nat) (tsPart : SubresourceRange) (tsAccess : Nat)
    (s : SubresourceRange) (h : rangeIsEmpty (intersectRange tsPart s) = false) :
    ∀ fuel, whileLoop access tsPart tsAccess [s] 0 fuel = none := by
  intro fuel
  induction fuel with
  | zero => rfl
  | succ f ih => simp [whileLoop, h, ih]

/-- On a singleton work list whose part misses tsPart, the inner loop
advances past it and exits with the list unchanged (two iterations). -/
theorem whileLoop_skips (access : Nat) (tsPart : SubresourceRange) (tsAccess : Nat)
    (s : SubresourceRange) (h : rangeIsEmpty (intersectRange tsPart s) = true) :
    ∀ f, whileLoop access tsPart tsAccess [s] 0 (f + 2) = some [s] := by
  intro f
  simp [whileLoop, h]

/-- If some history entry meets the requested part, the history scan
exhausts any fuel bound. -/
theorem outerLoop_stuck (access : Nat) (s : SubresourceRange) :
    ∀ statesRev : List (TrackedState SubresourceRange ImageState),
      (∃ ts ∈ statesRev, rangeIsEmpty (intersectRange ts.part s) = false) →
      ∀ fuel, outerLoop access statesRev [s] fuel = none := by
  intro statesRev
  induction statesRev with
  | nil => rintro ⟨ts, hmem, _⟩ fuel; cases hmem
  | cons ts rest ih =>
    rintro ⟨w, hmem, hw⟩ fuel
    by_cases hh : rangeIsEmpty (intersectRange ts.part s) = true
    · rcases whileLoop_parts_invariant access ts.part ts.state.1 fuel [s] 0 with hnone | hsome
      · simp [outerLoop, hnone]
      · have hwrest : w ∈ rest := by
          rcases List.mem_cons.mp hmem with rfl | h2
          · rw [hh] at hw; cases hw
          · exact h2
        simp [outerLoop, hsome, ih ⟨w, hwrest, hw⟩ fuel]
    · have hstuck := whileLoop_stuck access ts.part ts.state.1 s
        (Bool.not_eq_true _ ▸ hh) fuel
      simp [outerLoop, hstuck]

/-- If every history entry misses the requested part, the scan walks
through all of it and returns the work list unchanged. -/
theorem outerLoop_all_empty (access : Nat) (s : SubresourceRange) :
    ∀ statesRev : List (TrackedState SubresourceRange ImageState),
      (∀ ts ∈ statesRev, rangeIsEmpty (intersectRange ts.part s) = true) →
      ∀ f, outerLoop access statesRev [s] (f + 2) = some [s] := by
  intro statesRev
  induction statesRev with
  | nil => intro _ f; rfl
  | cons ts rest ih =>
    intro h f
    have hskip := whileLoop_skips access ts.part ts.state.1 s (h ts (by simp)) f
    have hrest := ih (fun x hx => h x (by simp [hx])) f
    simp [outerLoop, hskip, hrest]

/-- A stamp on a part that meets at least one history entry exhausts
every fuel bound: the source call diverges. -/
theorem stampScan_stuck (tr : TrackedImage) (sub : SubresourceRange)
    (access : Nat) (layout : ImageLayout)
    (h : ∃ ts ∈ tr.states, rangeIsEmpty (intersectRange ts.part sub) = false) :
    stampDiverges tr sub access layout := by
  intro fuel
  rcases h with ⟨ts, hmem, hts⟩
  have : ∃ ts2 ∈ tr.states.reverse, rangeIsEmpty (intersectRange ts2.part sub) = false :=
    ⟨ts, List.mem_reverse.mpr hmem, hts⟩
  simp [stampScan, outerLoop_stuck access sub tr.states.reverse this fuel]

/-- A stamp on a part that misses every history entry reaches the
terminal panic, with the original unclamped request as the reported
uncovered remainder. -/
theorem stampScan_all_empty (tr : TrackedImage) (sub : SubresourceRange)
    (access : Nat) (layout : ImageLayout)
    (h : ∀ ts ∈ tr.states, rangeIsEmpty (intersectRange ts.part sub) = true) :
    ∀ fuel, 2 ≤ fuel →
      stampScan tr sub access layout fuel = StampResult.panicked [sub] := by
  intro fuel hfuel
  obtain ⟨f, rfl⟩ : ∃ f, fuel = f + 2 := ⟨fuel - 2, by omega⟩
  have h2 : ∀ ts ∈ tr.states.reverse, rangeIsEmpty (intersectRange ts.part sub) = true :=
    fun ts hts => h ts (List.mem_reverse.mp hts)
  simp [stampScan, outerLoop_all_empty access sub tr.states.reverse h2 f]

/-- No path of stamp_image returns an epoch: the scan either runs out
of fuel or the function panics. -/
theorem stampScan_never_ok (tr : TrackedImage) (sub : SubresourceRange)
    (access : Nat) (layout : ImageLayout) :
    ∀ fuel epoch, stampScan tr sub access layout fuel ≠ StampResult.ok epoch := by
  intro fuel epoch
  cases h : outerLoop access tr.states.reverse [sub] fuel <;> simp [stampScan, h]

/-! ### Helper lemmas about the run loops -/

/-- The node-building phase only talks to the device and the tasks
through create_render_pass and prepare. -/
theorem compileLoop_shape :
    ∀ (tasks : List FgTask) (i : Nat) (e : Event), e ∈ compileLoop tasks i →
      ∃ j, e = Event.create_render_pass j ∨ e = Event.prepare j := by
  intro tasks
  induction tasks with
  | nil => intro i e he; cases he
  | cons t rest ih =>
    intro i e he
    cases ht : t.isGraphics <;> rw [compileLoop] at he <;> simp [ht] at he
    · exact ih (i + 1) e he
    · rcases he with rfl | rfl | he
      · exact ⟨i, Or.inl rfl⟩
      · exact ⟨i, Or.inr rfl⟩
      · exact ih (i + 1) e he

/-- No record event happens during node building. -/
theorem compileLoop_no_record (tasks : List FgTask) (i : Nat) :
    (compileLoop tasks i).filterMap recIdx = [] := by
  rw [List.filterMap_eq_nil]
  intro e he
  rcases compileLoop_shape tasks i e he with ⟨j, rfl | rfl⟩ <;> rfl

/-- During node building, every graphics task is prepared (at its
registration index, shifted by the starting index). -/
theorem prepare_mem_compileLoop :
    ∀ (tasks : List FgTask) (i j : Nat) (t : FgTask), tasks.get? j = some t →
      t.isGraphics = true → Event.prepare (i + j) ∈ compileLoop tasks i := by
  intro tasks
  induction tasks with
  | nil => intro i j t hj; cases hj
  | cons t0 rest ih =>
    intro i j t hj ht
    cases j with
    | zero =>
      cases hj
      simp [compileLoop, ht]
    | succ j2 =>
      have := ih (i + 1) j2 t hj ht
      have harith : i + 1 + j2 = i + (j2 + 1) := by omega
      rw [harith] at this
      cases h0 : t0.isGraphics <;> simp [compileLoop, h0, this]

/-- The recording phase only talks to the device and the tasks through
create_framebuffer and record. -/
theorem recordLoop_shape (fbFail : Nat → Bool) :
    ∀ (tasks : List FgTask) (i : Nat) (e : Event),
      e ∈ (recordLoop fbFail tasks i).1 →
      ∃ j, e = Event.create_framebuffer j ∨ e = Event.record j := by
  intro tasks
  induction tasks with
  | nil => intro i e he; cases he
  | cons t rest ih =>
    intro i e he
    cases ht : t.isGraphics <;> rw [recordLoop] at he <;> simp [ht] at he
    · rcases he with rfl | he
      · exact ⟨i, Or.inr rfl⟩
      · exact ih (i + 1) e he
    · cases hf : fbFail i <;> simp [hf] at he
      · rcases he with rfl | rfl | he
        · exact ⟨i, Or.inl rfl⟩
        · exact ⟨i, Or.inr rfl⟩
        · exact ih (i + 1) e he
      · exact ⟨i, Or.inl he⟩

/-- When no framebuffer creation fails, the recording loop completes
and records exactly the task indices, in ascending registration
order. -/
theorem recordLoop_all_ok (fbFail : Nat → Bool) (h : ∀ k, fbFail k = false) :
    ∀ (tasks : List FgTask) (i : Nat),
      (recordLoop fbFail tasks i).2 = true ∧
      (recordLoop fbFail tasks i).1.filterMap recIdx = List.range' i tasks.length := by
  intro tasks
  induction tasks with
  | nil => intro i; exact ⟨rfl, rfl⟩
  | cons t rest ih =>
    intro i
    have ihr := ih (i + 1)
    cases ht : t.isGraphics <;>
      simp [recordLoop, ht, h i, recIdx, ihr.1, ihr.2, List.range'_succ]

/-- When no framebuffer creation fails, every task is recorded (at its
registration index, shifted by the starting index). -/
theorem record_mem_recordLoop (fbFail : Nat → Bool) (h : ∀ k, fbFail k = false) :
    ∀ (tasks : List FgTask) (i j : Nat) (t : FgTask), tasks.get? j = some t →
      Event.record (i + j) ∈ (recordLoop fbFail tasks i).1 := by
  intro tasks
  induction tasks with
  | nil => intro i j t hj; cases hj
  | cons t0 rest ih =>
    intro i j t hj
    cases j with
    | zero =>
      cases hj
      cases h0 : t0.isGraphics <;> simp [recordLoop, h0, h i]
    | succ j2 =>
      have := ih (i + 1) j2 t hj
      have harith : i + 1 + j2 = i + (j2 + 1) := by omega
      rw [harith] at this
      cases h0 : t0.isGraphics <;> simp [recordLoop, h0, h i, this]

/-- If the recording loop completed, no graphics node it visited had a
failing framebuffer creation. -/
theorem recordLoop_ok_no_fail (fbFail : Nat → Bool) :
    ∀ (tasks : List FgTask) (i : Nat), (recordLoop fbFail tasks i).2 = true →
      ∀ j t, tasks.get? j = some t → t.isGraphics = true → fbFail (i + j) = false := by
  intro tasks
  induction tasks with
  | nil => intro i _ j t hj; cases hj
  | cons t0 rest ih =>
    intro i hok j t hj ht
    cases h0 : t0.isGraphics <;> rw [recordLoop] at hok <;> simp [h0] at hok
    · cases j with
      | zero => cases hj; rw [ht] at h0; cases h0
      | succ j2 =>
        have := ih (i + 1) hok j2 t hj ht
        have harith : i + 1 + j2 = i + (j2 + 1) := by omega
        rw [harith] at this; exact this
    · cases hf : fbFail i <;> simp [hf] at hok
      · cases j with
        | zero => cases hj; simpa using hf
        | succ j2 =>
          have := ih (i + 1) hok j2 t hj ht
          have harith : i + 1 + j2 = i + (j2 + 1) := by omega
          rw [harith] at this; exact this

/-! ### Small event vocabulary facts used by the run theorems -/

theorem submit_not_mem_compileLoop (tasks : List FgTask) (i : Nat) :
    Event.submit ∉ compileLoop tasks i := by
  intro hmem
  rcases compileLoop_shape tasks i _ hmem with ⟨j, hj | hj⟩ <;> cases hj

theorem reset_not_mem_compileLoop (tasks : List FgTask) (i : Nat) :
    Event.reset_fence ∉ compileLoop tasks i := by
  intro hmem
  rcases compileLoop_shape tasks i _ hmem with ⟨j, hj | hj⟩ <;> cases hj

theorem submit_not_mem_recordLoop (fbFail : Nat → Bool) (tasks : List FgTask) (i : Nat) :
    Event.submit ∉ (recordLoop fbFail tasks i).1 := by
  intro hmem
  rcases recordLoop_shape fbFail tasks i _ hmem with ⟨j, hj | hj⟩ <;> cases hj

theorem reset_not_mem_recordLoop (fbFail : Nat → Bool) (tasks : List FgTask) (i : Nat) :
    Event.reset_fence ∉ (recordLoop fbFail tasks i).1 := by
  intro hmem
  rcases recordLoop_shape fbFail tasks i _ hmem with ⟨j, hj | hj⟩ <;> cases hj

/-! ### Concrete inputs used by the claim theorems and witnesses -/

/-- A fresh single-level single-layer color image. -/
def imgC1 : Image := ⟨1, 1, ASPECT_COLOR, none⟩

/-- Its full subresource range, exactly covered by the seeded history. -/
def reqC1 : SubresourceRange := ⟨ASPECT_COLOR, 0, 1, 0, 1⟩

/-- A fresh 4-level 6-layer color image (the partial-coverage example of
the specification). -/
def imgC2 : Image := ⟨4, 6, ASPECT_COLOR, none⟩

/-- Levels 2..6 of imgC2: levels 2..4 are declared, levels 4..6 are an
uncovered remainder. -/
def reqC2 : SubresourceRange := ⟨ASPECT_COLOR, 2, 6, 0, 6⟩

/-- Levels 4..6 of imgC2: entirely outside the declared bounds. -/
def reqC2w : SubresourceRange := ⟨ASPECT_COLOR, 4, 6, 0, 6⟩

/-- A fresh 2-level color image. -/
def imgC3 : Image := ⟨2, 1, ASPECT_COLOR, none⟩

/-- Level 0 of imgC3, the sub-range of the first write W1. -/
def reqC3 : SubresourceRange := ⟨ASPECT_COLOR, 0, 1, 0, 1⟩

/-- A fresh depth-stencil image. -/
def imgC4 : Image := ⟨1, 1, ASPECT_DEPTH ||| ASPECT_STENCIL, none⟩

/-- The depth-only slice of imgC4. -/
def reqC4d : SubresourceRange := ⟨ASPECT_DEPTH, 0, 1, 0, 1⟩

/-- The stencil-only slice of imgC4, disjoint from the depth slice. -/
def reqC4s : SubresourceRange := ⟨ASPECT_STENCIL, 0, 1, 0, 1⟩

/-- A fresh single-level single-layer color image for the read-only
scenario. -/
def imgC5 : Image := ⟨1, 1, ASPECT_COLOR, none⟩

/-- Its full subresource range. -/
def reqC5 : SubresourceRange := ⟨ASPECT_COLOR, 0, 1, 0, 1⟩

/-- A graph with two registered tasks: one graphics, one transfer. -/
def gC6 : FrameGraph := ⟨[], [], [FgTask.graphics ⟨[], [], none⟩ ⟨[], []⟩, FgTask.transfer]⟩

/-- A graph with a single registered graphics task. -/
def gC7 : FrameGraph := ⟨[], [], [FgTask.graphics ⟨[], [], none⟩ ⟨[], []⟩]⟩

/-- A graph owning one fresh color image. -/
def gC8 : FrameGraph := ⟨[], [TrackedResource.ofResource (⟨1, 1, ASPECT_COLOR, none⟩ : Image)], []⟩

/-- One declared input attachment on image 0 of gC8. -/
def slC8 : SubresourceLayers := ⟨ASPECT_COLOR, 0, 0, 1⟩

/-- An attachment set with that single input attachment. -/
def attsC8 : Attachments (SubresourceLayers × ImageLayout) :=
  ⟨[(0, slC8, ImageLayout.ShaderReadOnlyOptimal)], [], none⟩

/-- A fresh 3-level 2-layer color image for the C10 witness. -/
def imgC10 : Image := ⟨3, 2, ASPECT_COLOR, none⟩

/-- Level 1..2 of imgC10, which meets the seeded full-extent entry. -/
def reqC10 : SubresourceRange := ⟨ASPECT_COLOR, 1, 2, 0, 2⟩

/-! ### Claim theorems -/

/-- Claim C1.  The claim states that a stamp whose requested part is
fully covered by the existing history appends one new TrackedState and
returns a freshly minted epoch.  The code does neither: on the fully
covered request reqC1 (the seeded full extent of imgC1), stamp_image
exhausts every fuel bound (the inner loop never advances past a
non-empty intersection), so it neither returns an epoch nor reaches any
code that could append to the history. -/
theorem spec_C1_covered_stamp_never_completes :
    (∀ fuel, stampScan (TrackedResource.ofResource imgC1) reqC1
        COLOR_ATTACHMENT_WRITE ImageLayout.ColorAttachmentOptimal fuel =
      StampResult.outOfFuel) ∧
    (∀ fuel epoch, stampScan (TrackedResource.ofResource imgC1) reqC1
        COLOR_ATTACHMENT_WRITE ImageLayout.ColorAttachmentOptimal fuel ≠
      StampResult.ok epoch) := by
  constructor
  · exact stampScan_stuck _ _ _ _ (by decide)
  · exact stampScan_never_ok _ _ _ _

/-- Claim C1 witness: the divergence at a concrete fuel bound. -/
theorem spec_C1_covered_stamp_never_completes_witness :
    stampScan (TrackedResource.ofResource imgC1) reqC1
      COLOR_ATTACHMENT_WRITE ImageLayout.ColorAttachmentOptimal 300 =
      StampResult.outOfFuel :=
  spec_C1_covered_stamp_never_completes.1 300

/-- Claim C2 counterexample.  reqC2 (levels 2..6 of a 4-level image)
has an uncovered remainder (levels 4..6), so the claim requires the
call to fail with the uncovered-subresource error; instead the call
exhausts every fuel bound (the source loops forever on the covered
levels 2..4), so the fatal error is never raised. -/
theorem spec_C2_counterexample :
    stampDiverges (TrackedResource.ofResource imgC2) reqC2
      COLOR_ATTACHMENT_WRITE ImageLayout.ColorAttachmentOptimal :=
  stampScan_stuck _ _ _ _ (by decide)

/-- Claim C2, amended: only a request whose sub-range has an empty
geometric intersection with every declared history entry (in
particular, one entirely outside the declared bounds) fails with the
uncovered-subresource panic; the panic reports the original request
unclamped, and no state is recorded on that path. -/
theorem spec_C2_amended_disjoint_request_panics (tr : TrackedImage)
    (sub : SubresourceRange) (access : Nat) (layout : ImageLayout)
    (h : ∀ ts ∈ tr.states, rangeIsEmpty (intersectRange ts.part sub) = true) :
    ∀ fuel, 2 ≤ fuel →
      stampScan tr sub access layout fuel = StampResult.panicked [sub] :=
  stampScan_all_empty tr sub access layout h

/-- Claim C2 witness: levels 4..6 of the 4-level image are disjoint
from its whole history, and the call panics with the unclamped
request. -/
theorem spec_C2_amended_disjoint_request_panics_witness :
    stampScan (TrackedResource.ofResource imgC2) reqC2w
      COLOR_ATTACHMENT_WRITE ImageLayout.ColorAttachmentOptimal 2 =
      StampResult.panicked [reqC2w] :=
  spec_C2_amended_disjoint_request_panics _ _ _ _ (by decide) 2 (by decide)

/-- Claim C3.  The claim describes the dependency edge recorded for W2
after W1 succeeded.  On this code no write ever succeeds: the very
first write W1 (level 0 of imgC3, color-attachment write) exhausts
every fuel bound and never returns an epoch, and the hazard branch that
should record an edge has an empty body, so no TrackedState carrying a
dependency edge is ever produced. -/
theorem spec_C3_first_write_never_succeeds :
    (∀ fuel, stampScan (TrackedResource.ofResource imgC3) reqC3
        COLOR_ATTACHMENT_WRITE ImageLayout.ColorAttachmentOptimal fuel =
      StampResult.outOfFuel) ∧
    (∀ fuel epoch, stampScan (TrackedResource.ofResource imgC3) reqC3
        COLOR_ATTACHMENT_WRITE ImageLayout.ColorAttachmentOptimal fuel ≠
      StampResult.ok epoch) := by
  constructor
  · exact stampScan_stuck _ _ _ _ (by decide)
  · exact stampScan_never_ok _ _ _ _

/-- Claim C3 witness at a concrete fuel bound. -/
theorem spec_C3_first_write_never_succeeds_witness :
    stampScan (TrackedResource.ofResource imgC3) reqC3
      COLOR_ATTACHMENT_WRITE ImageLayout.ColorAttachmentOptimal 300 =
      StampResult.outOfFuel :=
  spec_C3_first_write_never_succeeds.1 300

/-- Claim C4.  The depth and stencil slices of imgC4 are geometrically
disjoint (the premise of the claim), but the first of the two stamp
calls already exhausts every fuel bound and never produces a
TrackedState, so the pair of resulting TrackedStates the claim speaks
about never exists on this code. -/
theorem spec_C4_disjoint_scenario_unreachable :
    rangeIsEmpty (intersectRange reqC4d reqC4s) = true ∧
    (∀ fuel, stampScan (TrackedResource.ofResource imgC4) reqC4d
        DEPTH_STENCIL_ATTACHMENT_WRITE ImageLayout.DepthStencilAttachmentOptimal fuel =
      StampResult.outOfFuel) ∧
    (∀ fuel epoch, stampScan (TrackedResource.ofResource imgC4) reqC4d
        DEPTH_STENCIL_ATTACHMENT_WRITE ImageLayout.DepthStencilAttachmentOptimal fuel ≠
      StampResult.ok epoch) := by
  refine ⟨by decide, ?_, ?_⟩
  · exact stampScan_stuck _ _ _ _ (by decide)
  · exact stampScan_never_ok _ _ _ _

/-- Claim C4 witness at a concrete fuel bound. -/
theorem spec_C4_disjoint_scenario_unreachable_witness :
    stampScan (TrackedResource.ofResource imgC4) reqC4d
      DEPTH_STENCIL_ATTACHMENT_WRITE ImageLayout.DepthStencilAttachmentOptimal 300 =
      StampResult.outOfFuel :=
  spec_C4_disjoint_scenario_unreachable.2.1 300

/-- Claim C5.  INPUT_ATTACHMENT_READ is a read-only access (it shares
no bit with ALL_WRITE), yet even the first read-only stamp on a fresh
image exhausts every fuel bound: the inner loop ignores the hazard
classification entirely and never advances past a non-empty
intersection, so no stamp ever succeeds, no epoch is ever minted and no
second, larger epoch can ever be returned.  (Buffers cannot even reach
a tracker: the source has no stamp path for buffers at all.) -/
theorem spec_C5_read_only_stamp_never_succeeds :
    accessIntersects INPUT_ATTACHMENT_READ ALL_WRITE = false ∧
    (∀ fuel, stampScan (TrackedResource.ofResource imgC5) reqC5
        INPUT_ATTACHMENT_READ ImageLayout.ShaderReadOnlyOptimal fuel =
      StampResult.outOfFuel) ∧
    (∀ fuel epoch, stampScan (TrackedResource.ofResource imgC5) reqC5
        INPUT_ATTACHMENT_READ ImageLayout.ShaderReadOnlyOptimal fuel ≠
      StampResult.ok epoch) := by
  refine ⟨by decide, ?_, ?_⟩
  · exact stampScan_stuck _ _ _ _ (by decide)
  · exact stampScan_never_ok _ _ _ _

/-- Claim C5 witness at a concrete fuel bound. -/
theorem spec_C5_read_only_stamp_never_succeeds_witness :
    stampScan (TrackedResource.ofResource imgC5) reqC5
      INPUT_ATTACHMENT_READ ImageLayout.ShaderReadOnlyOptimal 300 =
      StampResult.outOfFuel :=
  spec_C5_read_only_stamp_never_succeeds.2.1 300

/-- Claim C6.  When no external framebuffer creation fails, run
completes, the record events are exactly one per registered task in
registration order, and for every graphics task its prepare event lies
in the node-building prefix of the trace, strictly before the recording
phase that contains its record event. -/
theorem spec_C6_run_records_in_registration_order (g : FrameGraph)
    (fbFail : Nat → Bool) (h : ∀ k, fbFail k = false) :
    (g.run fbFail).2 = true ∧
    (g.run fbFail).1.filterMap recIdx = List.range g.tasks.length ∧
    (∀ j t, g.tasks.get? j = some t → t.isGraphics = true →
      ∃ l1 l2, (g.run fbFail).1 = l1 ++ l2 ∧
        Event.prepare j ∈ l1 ∧ Event.record j ∈ l2) := by
  have hrec := recordLoop_all_ok fbFail h g.tasks 0
  have hok : (recordLoop fbFail g.tasks 0).2 = true := hrec.1
  have hrun1 : (g.run fbFail).1 =
      compileLoop g.tasks 0 ++
        ((recordLoop fbFail g.tasks 0).1 ++
          [Event.finish, Event.reset_fence, Event.submit]) := by
    simp [FrameGraph.run, hok]
  have hrun2 : (g.run fbFail).2 = true := by
    simp [FrameGraph.run, hok]
  refine ⟨hrun2, ?_, ?_⟩
  · rw [hrun1, List.filterMap_append, List.filterMap_append,
      compileLoop_no_record, hrec.2]
    simp [recIdx, List.range_eq_range']
  · intro j t hj ht
    refine ⟨compileLoop g.tasks 0,
      (recordLoop fbFail g.tasks 0).1 ++ [Event.finish, Event.reset_fence, Event.submit],
      hrun1, ?_, ?_⟩
    · simpa using prepare_mem_compileLoop g.tasks 0 j t hj ht
    · exact List.mem_append_left _ (by simpa using record_mem_recordLoop fbFail h g.tasks 0 j t hj)

/-- Claim C6 witness: a graph with a graphics task then a transfer
task, no external failure. -/
theorem spec_C6_run_records_in_registration_order_witness :
    (gC6.run (fun _ => false)).2 = true ∧
    (gC6.run (fun _ => false)).1.filterMap recIdx = List.range 2 ∧
    (∃ l1 l2, (gC6.run (fun _ => false)).1 = l1 ++ l2 ∧
      Event.prepare 0 ∈ l1 ∧ Event.record 0 ∈ l2) := by
  have h := spec_C6_run_records_in_registration_order gC6 (fun _ => false) (fun _ => rfl)
  exact ⟨h.1, h.2.1, h.2.2 0 (FgTask.graphics ⟨[], [], none⟩ ⟨[], []⟩) rfl rfl⟩

/-- Claim C7.  If any graphics node of the frame has a failing
framebuffer creation, run aborts during recording: nothing is
submitted and the fence is neither reset nor armed.  Conversely a
completed run emits exactly one submission tail, finish then
reset_fence then submit, and no submission or fence reset occurs
anywhere before that tail. -/
theorem spec_C7_failure_means_no_submission (g : FrameGraph) (fbFail : Nat → Bool) :
    ((∃ j t, g.tasks.get? j = some t ∧ t.isGraphics = true ∧ fbFail j = true) →
      (g.run fbFail).2 = false ∧
      Event.submit ∉ (g.run fbFail).1 ∧
      Event.reset_fence ∉ (g.run fbFail).1) ∧
    ((g.run fbFail).2 = true →
      ∃ pre, (g.run fbFail).1 = pre ++ [Event.finish, Event.reset_fence, Event.submit] ∧
        Event.submit ∉ pre ∧ Event.reset_fence ∉ pre) := by
  constructor
  · rintro ⟨j, t, hj, ht, hf⟩
    have hok : (recordLoop fbFail g.tasks 0).2 = false := by
      cases hcase : (recordLoop fbFail g.tasks 0).2
      · rfl
      · have := recordLoop_ok_no_fail fbFail g.tasks 0 hcase j t hj ht
        rw [Nat.zero_add, hf] at this
        cases this
    have hrun1 : (g.run fbFail).1 =
        compileLoop g.tasks 0 ++ (recordLoop fbFail g.tasks 0).1 := by
      simp [FrameGraph.run, hok]
    have hrun2 : (g.run fbFail).2 = false := by
      simp [FrameGraph.run, hok]
    refine ⟨hrun2, ?_, ?_⟩
    · rw [hrun1]
      intro hmem
      rcases List.mem_append.mp hmem with hc | hr
      · exact submit_not_mem_compileLoop g.tasks 0 hc
      · exact submit_not_mem_recordLoop fbFail g.tasks 0 hr
    · rw [hrun1]
      intro hmem
      rcases List.mem_append.mp hmem with hc | hr
      · exact reset_not_mem_compileLoop g.tasks 0 hc
      · exact reset_not_mem_recordLoop fbFail g.tasks 0 hr
  · intro hok2
    have hok : (recordLoop fbFail g.tasks 0).2 = true := by
      cases hcase : (recordLoop fbFail g.tasks 0).2
      · rw [FrameGraph.run] at hok2
        simp [hcase] at hok2
      · rfl
    refine ⟨compileLoop g.tasks 0 ++ (recordLoop fbFail g.tasks 0).1, ?_, ?_, ?_⟩
    · simp [FrameGraph.run, hok]
    · intro hmem
      rcases List.mem_append.mp hmem with hc | hr
      · exact submit_not_mem_compileLoop g.tasks 0 hc
      · exact submit_not_mem_recordLoop fbFail g.tasks 0 hr
    · intro hmem
      rcases List.mem_append.mp hmem with hc | hr
      · exact reset_not_mem_compileLoop g.tasks 0 hc
      · exact reset_not_mem_recordLoop fbFail g.tasks 0 hr

/-- Claim C7 witness: a single graphics task whose framebuffer
creation fails produces no submission and leaves the fence alone. -/
theorem spec_C7_failure_means_no_submission_witness :
    (gC7.run (fun _ => true)).2 = false ∧
    Event.submit ∉ (gC7.run (fun _ => true)).1 ∧
    Event.reset_fence ∉ (gC7.run (fun _ => true)).1 :=
  (spec_C7_failure_means_no_submission gC7 (fun _ => true)).1
    ⟨0, FgTask.graphics ⟨[], [], none⟩ ⟨[], []⟩, rfl, rfl, rfl⟩

/-- Claim C8.  The claim requires the tracker to be invoked once per
declared attachment and once per declared buffer or image access in
`resources`.  First part: with no attachments, add_render_task performs
zero tracker invocations whatever `resources` declares (the source
leaves resource tracking as a TODO), and stores the task with the
resources untouched.  Second part: a single input attachment does
produce one tracker invocation with the implied INPUT_ATTACHMENT_READ
access, but that invocation exhausts every fuel bound, so no stored
attachment entry ever carries an epoch. -/
theorem spec_C8_resources_never_tracked :
    (∀ (g : FrameGraph) (res : Resources) (fuel : Nat),
      g.add_render_task ⟨[], [], none⟩ res fuel =
        ARTResult.ok { g with tasks := g.tasks ++ [FgTask.graphics ⟨[], [], none⟩ res] } []) ∧
    (∀ fuel, gC8.add_render_task attsC8 ⟨[], []⟩ fuel =
      ARTResult.outOfFuel
        [⟨0, slC8.toRange, INPUT_ATTACHMENT_READ, ImageLayout.ShaderReadOnlyOptimal⟩]) := by
  constructor
  · intro g res fuel; rfl
  · intro fuel
    have hd : gC8.stamp_image 0 slC8.toRange INPUT_ATTACHMENT_READ
        ImageLayout.ShaderReadOnlyOptimal fuel = StampResult.outOfFuel := by
      have hs := stampScan_stuck
        (TrackedResource.ofResource (⟨1, 1, ASPECT_COLOR, none⟩ : Image))
        slC8.toRange INPUT_ATTACHMENT_READ ImageLayout.ShaderReadOnlyOptimal (by decide)
      simpa [FrameGraph.stamp_image, gC8] using hs fuel
    simp [FrameGraph.add_render_task, attsC8, goInputs, hd]

/-- Claim C9.  use_buffer and use_image store, at the returned
reference, a TrackedResource seeded with exactly one TrackedState: the
unit part and the idle buffer state for buffers, and the full extent
(all format aspects, levels 0..num_levels, layers 0..num_layers) and
idle state for images, each with an empty dependency list. -/
theorem spec_C9_use_seeds_one_full_extent_idle_state (g : FrameGraph)
    (b : Buffer) (img : Image) :
    (g.use_buffer b).2.buffers.get? (g.use_buffer b).1 =
      some ⟨b, [⟨(), b.body.getD 0, []⟩]⟩ ∧
    (g.use_image img).2.images.get? (g.use_image img).1 =
      some ⟨img, [⟨⟨img.formatAspects, 0, img.numLevels, 0, img.numLayers⟩,
                  img.body.getD (0, ImageLayout.Undefined), []⟩]⟩ := by
  constructor
  · simp [FrameGraph.use_buffer, TrackedResource.ofResource,
      List.get?_concat_length, Resource.full_part, Resource.idle_state]
  · simp [FrameGraph.use_image, TrackedResource.ofResource,
      List.get?_concat_length, Resource.full_part, Resource.idle_state]

/-- Claim C10.  stamp_image is not total: whenever the requested
sub-range has a non-empty geometric intersection with at least one
history entry, the scan exhausts every fuel bound (the inner loop
neither shrinks the active part nor advances its index after a
non-empty intersection), and on no input does stamp_image return an
epoch: it either diverges or reaches the uncovered-sub-parts panic. -/
theorem spec_C10_stamp_image_never_returns (tr : TrackedImage)
    (sub : SubresourceRange) (access : Nat) (layout : ImageLayout) :
    ((∃ ts ∈ tr.states, rangeIsEmpty (intersectRange ts.part sub) = false) →
      stampDiverges tr sub access layout) ∧
    (∀ fuel epoch, stampScan tr sub access layout fuel ≠ StampResult.ok epoch) :=
  ⟨fun h => stampScan_stuck tr sub access layout h,
   stampScan_never_ok tr sub access layout⟩

/-- Claim C10 witness: a concrete overlapping request exhausts a
concrete fuel bound. -/
theorem spec_C10_stamp_image_never_returns_witness :
    stampScan (TrackedResource.ofResource imgC10) reqC10
      TRANSFER_WRITE ImageLayout.TransferDstOptimal 500 = StampResult.outOfFuel :=
  (spec_C10_stamp_image_never_returns (TrackedResource.ofResource imgC10) reqC10
    TRANSFER_WRITE ImageLayout.TransferDstOptimal).1 (by decide) 500
